import Mathlib

/-!
Shallow embedding of the Feeding Schedule & Inventory Forecasting Engine
of the reptile-tracker web application (src/web-app/feeding_schedules.py,
src/web-app/reptile_tracker_db.py, src/web-app/app.py).

Modelling conventions:
* A naive Python `datetime` is a pair of a proleptic-Gregorian day ordinal
  (an integer, epoch 1970-01-01) and the number of seconds past midnight.
  `timedelta(days = n)` addition is day-ordinal addition; `(a - b).days`
  is floor division of the second difference by 86400.
* Database DATE columns hold `YYYY-MM-DD` strings; since `strftime` of a
  date is injective, stored dates are modelled by their day ordinals.
* Python `float` arithmetic on the small quantities involved
  (sums and quotients of day counts and item quantities) is modelled by
  exact rational arithmetic; at every comparison threshold appearing in
  the source the two agree because the operands are many orders of
  magnitude away from the rounding error of binary64.
-/

namespace ReptileTracker

/-- A naive Python `datetime`: proleptic-Gregorian day ordinal (epoch
1970-01-01) plus seconds past midnight. -/
structure PDateTime where
  day : Int
  sec : Int
  deriving Repr, DecidableEq

/-- Python `dt + timedelta(days = n)`. -/
def PDateTime.addDays (dt : PDateTime) (n : Int) : PDateTime :=
  { dt with day := dt.day + n }

/-- Python `(a - b).days`: the whole-day part of the difference,
floored (Lean's `/` on `Int` is Euclidean division, which is floor
division for the positive divisor 86400). -/
def PDateTime.subDays (a b : PDateTime) : Int :=
  ((a.day - b.day) * 86400 + (a.sec - b.sec)) / 86400

/-- Gregorian leap-year test. -/
def isLeap (y : Int) : Bool :=
  y % 4 = 0 && (y % 100 ≠ 0 || y % 400 = 0)

/-- Number of days in a month of a given year. -/
def daysInMonth (y m : Int) : Int :=
  if m = 2 then (if isLeap y then 29 else 28)
  else if m = 4 || m = 6 || m = 9 || m = 11 then 30
  else 31

/-- Day ordinal (epoch 1970-01-01) of a civil date, by the standard
`days_from_civil` algorithm; all divisions have positive divisors, so
Lean's Euclidean `/` coincides with floor division. -/
def dayOrdinal (y m d : Int) : Int :=
  let y' := if m ≤ 2 then y - 1 else y
  let era := y' / 400
  let yoe := y' - era * 400
  let mp := if m > 2 then m - 3 else m + 9
  let doy := (153 * mp + 2) / 5 + d - 1
  let doe := yoe * 365 + yoe / 4 - yoe / 100 + doy
  era * 146097 + doe - 719468

/-- One decimal digit. -/
def digitVal (c : Char) : Option Int :=
  if '0' ≤ c && c ≤ '9' then some (Int.ofNat (c.toNat - '0'.toNat)) else none

/-- Read exactly four digits (`strptime`'s `%Y`). -/
def read4 : List Char → Option (Int × List Char)
  | a :: b :: c :: d :: rest => do
    let x ← digitVal a
    let y ← digitVal b
    let z ← digitVal c
    let w ← digitVal d
    pure (x * 1000 + y * 100 + z * 10 + w, rest)
  | _ => none

/-- Read one or two digits, greedily (`strptime`'s `%m`, `%d`, `%H`,
`%M`, `%S` each match one or two digits; the literal separators of the
formats used here are never digits, so the greedy read agrees with the
regex used by CPython). -/
def read12 : List Char → Option (Int × List Char)
  | a :: b :: rest =>
    match digitVal a, digitVal b with
    | some x, some y => some (x * 10 + y, rest)
    | some x, none => some (x, b :: rest)
    | none, _ => none
  | [a] => do
    let x ← digitVal a
    pure (x, [])
  | [] => none

/-- Expect a literal character. -/
def lit (c : Char) : List Char → Option (List Char)
  | a :: rest => if a = c then some rest else none
  | [] => none

/-- Bundle of the validity checks `datetime.strptime` performs on a
year-month-day (range checks of the format regex plus construction of
the `datetime` object). -/
def validYMD (y m d : Int) : Bool :=
  1 ≤ m && m ≤ 12 && 1 ≤ d && d ≤ daysInMonth y m

/-- Python `datetime.strptime(s, '%Y-%m-%d')`, as a day ordinal (time 0). -/
def parseYMD (s : String) : Option PDateTime := do
  let (y, r1) ← read4 s.data
  let r2 ← lit '-' r1
  let (m, r3) ← read12 r2
  let r4 ← lit '-' r3
  let (d, r5) ← read12 r4
  if r5 = [] && validYMD y m d then
    pure ⟨dayOrdinal y m d, 0⟩
  else none

/-- Python `datetime.strptime(s, '%Y-%m-%d %H:%M:%S')`. -/
def parseYMDHMS (s : String) : Option PDateTime := do
  let (y, r1) ← read4 s.data
  let r2 ← lit '-' r1
  let (m, r3) ← read12 r2
  let r4 ← lit '-' r3
  let (d, r5) ← read12 r4
  let r6 ← lit ' ' r5
  let (hh, r7) ← read12 r6
  let r8 ← lit ':' r7
  let (mm, r9) ← read12 r8
  let r10 ← lit ':' r9
  let (ss, r11) ← read12 r10
  if r11 = [] && validYMD y m d && hh ≤ 23 && mm ≤ 59 && ss ≤ 59 then
    pure ⟨dayOrdinal y m d, hh * 3600 + mm * 60 + ss⟩
  else none

/-- Python `datetime.strptime(s, '%d/%m/%Y')`. -/
def parseDMY (s : String) : Option PDateTime := do
  let (d, r1) ← read12 s.data
  let r2 ← lit '/' r1
  let (m, r3) ← read12 r2
  let r4 ← lit '/' r3
  let (y, r5) ← read4 r4
  if r5 = [] && validYMD y m d then
    pure ⟨dayOrdinal y m d, 0⟩
  else none

/-- Python `datetime.strptime(s, '%m/%d/%Y')`. -/
def parseMDY (s : String) : Option PDateTime := do
  let (m, r1) ← read12 s.data
  let r2 ← lit '/' r1
  let (d, r3) ← read12 r2
  let r4 ← lit '/' r3
  let (y, r5) ← read4 r4
  if r5 = [] && validYMD y m d then
    pure ⟨dayOrdinal y m d, 0⟩
  else none

/-- The format-probing loop of `update_feeding_reminder_dates`
(reptile_tracker_db.py lines 1147-1154): try the formats
`'%Y-%m-%d %H:%M:%S'`, `'%Y-%m-%d'`, `'%d/%m/%Y'`, `'%m/%d/%Y'` in
order, returning the first success. -/
def parseFeedingDate (s : String) : Option PDateTime :=
  (parseYMDHMS s).orElse fun _ =>
    (parseYMD s).orElse fun _ =>
      (parseDMY s).orElse fun _ =>
        parseMDY s

/-- Python `str.lower()` on the ASCII data this application stores
(species keys, food types and sizes). -/
def lowerChar (c : Char) : Char :=
  if 'A' ≤ c && c ≤ 'Z' then Char.ofNat (c.toNat + 32) else c

def strLower (s : String) : String :=
  ⟨s.data.map lowerChar⟩

/-- Python `needle in hay` on character lists: `needle` occurs as a contiguous
substring of `hay` (the empty string is contained in everything). -/
def charsStartWith : List Char → List Char → Bool
  | [], _ => true
  | _ :: _, [] => false
  | a :: as, b :: bs => a = b && charsStartWith as bs

def charsContains (hay needle : List Char) : Bool :=
  charsStartWith needle hay ||
    match hay with
    | [] => false
    | _ :: rest => charsContains rest needle

/-- Python `needle in hay` on strings. -/
def pyIn (needle hay : String) : Bool :=
  charsContains hay.data needle.data

/-- An interval triple `(min_days, max_days, recommended_days)`. -/
abbrev Triple := Int × Int × Int

/-- The `"default"` bucket of `FEEDING_SCHEDULES`
(feeding_schedules.py lines 77-82). -/
def defaultSchedule : List (String × Triple) :=
  [("hatchling", (5, 7, 7)), ("juvenile", (7, 10, 7)),
   ("sub-adult", (10, 14, 10)), ("adult", (14, 21, 14))]

/-- Source table `FEEDING_SCHEDULES` (feeding_schedules.py lines 11-83), in
declaration order; Python dicts preserve insertion order, so the
iteration order of `.keys()` is this list order. -/
def FEEDING_SCHEDULES : List (String × List (String × Triple)) :=
  [("Ball Python",
    [("hatchling", (5, 7, 5)), ("juvenile", (7, 10, 7)),
     ("sub-adult", (10, 14, 10)), ("adult", (14, 21, 14))]),
   ("Corn Snake",
    [("hatchling", (5, 7, 5)), ("juvenile", (7, 10, 7)),
     ("sub-adult", (10, 14, 10)), ("adult", (14, 21, 14))]),
   ("Boa Constrictor",
    [("hatchling", (5, 7, 5)), ("juvenile", (7, 10, 7)),
     ("sub-adult", (10, 14, 10)), ("adult", (14, 28, 14))]),
   ("King Snake",
    [("hatchling", (5, 7, 5)), ("juvenile", (7, 10, 7)),
     ("sub-adult", (10, 14, 10)), ("adult", (14, 21, 14))]),
   ("Milk Snake",
    [("hatchling", (5, 7, 5)), ("juvenile", (7, 10, 7)),
     ("sub-adult", (10, 14, 10)), ("adult", (14, 21, 14))]),
   ("Carpet Python",
    [("hatchling", (5, 7, 5)), ("juvenile", (7, 10, 7)),
     ("sub-adult", (10, 14, 10)), ("adult", (14, 21, 14))]),
   ("Bearded Dragon",
    [("hatchling", (1, 1, 1)), ("juvenile", (1, 2, 1)),
     ("sub-adult", (2, 3, 2)), ("adult", (2, 3, 2))]),
   ("Leopard Gecko",
    [("hatchling", (1, 2, 1)), ("juvenile", (2, 3, 2)),
     ("sub-adult", (3, 4, 3)), ("adult", (3, 4, 3))]),
   ("Crested Gecko",
    [("hatchling", (1, 2, 1)), ("juvenile", (2, 3, 2)),
     ("sub-adult", (3, 4, 3)), ("adult", (3, 4, 3))]),
   ("Blue Tongue Skink",
    [("hatchling", (2, 3, 2)), ("juvenile", (3, 4, 3)),
     ("sub-adult", (4, 5, 4)), ("adult", (5, 7, 5))]),
   ("default", defaultSchedule)]

/-- Python `age_category in schedule` / `schedule[age_category]`: association
lookup in one species bucket. -/
def findCat (sched : List (String × Triple)) (cat : String) : Option Triple :=
  (sched.find? (fun e => e.1 = cat)).map (·.2)

/-- Source function `get_age_category` (feeding_schedules.py lines 86-108).  The float
test `age_days / 30.44 < b` is modelled exactly as the rational test
`25 * age_days < b * 761` (`30.44 = 761/25`); binary64 rounding of
`30.44` and of the division cannot flip any of the three comparisons,
since for every integer day count the exact quotient is at least `0.01`
away from the bucket boundaries 6, 12 and 24. -/
def get_age_category (date_of_birth : Option String) (now : PDateTime) : String :=
  match date_of_birth with
  | none => "adult"
  | some s =>
    match parseYMD s with
    | none => "adult"
    | some dob =>
      let age_days := now.subDays dob
      if 25 * age_days < 4566 then "hatchling"
      else if 25 * age_days < 9132 then "juvenile"
      else if 25 * age_days < 18264 then "sub-adult"
      else "adult"

/-- One step of the `for species_key in FEEDING_SCHEDULES.keys()` loop
of `get_feeding_interval` (feeding_schedules.py lines 120-126). -/
def scheduleMatches (species_lower : String) (species_key : String) : Bool :=
  pyIn (strLower species_key) species_lower || pyIn species_lower (strLower species_key)

/-- The species loop of `get_feeding_interval`, over a remaining tail of
the table. -/
def intervalLoop (table : List (String × List (String × Triple)))
    (species_lower : String) (age_category : String) : Triple :=
  match table with
  | [] => (findCat defaultSchedule age_category).getD (0, 0, 0)
  | (key, sched) :: rest =>
    if scheduleMatches species_lower key then
      match findCat sched age_category with
      | some t => t
      | none => (findCat sched "adult").getD ((findCat defaultSchedule "adult").getD (0, 0, 0))
    else intervalLoop rest species_lower age_category

/-- Source function `get_feeding_interval` (feeding_schedules.py lines 111-129).  The
`(0,0,0)` defaults of the lookups are never reached for the age
categories `get_age_category` can produce, mirroring that Python would
raise a `KeyError` there. -/
def get_feeding_interval (species : String) (date_of_birth : Option String)
    (now : PDateTime) : Triple :=
  let age_category := get_age_category date_of_birth now
  intervalLoop FEEDING_SCHEDULES (strLower species) age_category

/-- Python 3 `round` on the exact value: round half to even. -/
def pyRound (q : ℚ) : Int :=
  let f := ⌊q⌋
  if q - f < 1 / 2 then f
  else if 1 / 2 < q - f then f + 1
  else if Even f then f else f + 1

/-- A prediction record (suggest_next_feeding_date's return dict and the
reduced no-history dict of get_feeding_recommendation; the purely
presentational `status_message` and `interval_range` strings are not
modelled).  Date fields are day ordinals. -/
structure Recommendation where
  suggested_date : Option Int
  earliest_date : Option Int
  latest_date : Option Int
  days_until : Option Int
  status : String
  recommended_interval : Int
  age_category : String
  confidence : String
  deriving Repr, DecidableEq

/-- Source function `suggest_next_feeding_date` (feeding_schedules.py lines 132-205).
The feeding history is modelled by the list of its `feeding_date`
strings (most recent first).  `none` models the `ValueError` Python
raises when `strptime` fails on the last-feeding date, or on any history
date when the history has at least 3 entries (only then does the
interval loop parse them). -/
def suggest_next_feeding_date (species : String) (last_feeding_date : String)
    (date_of_birth : Option String) (feeding_history : List String)
    (now : PDateTime) : Option Recommendation := do
  let (min_days, max_days, rec0) := get_feeding_interval species date_of_birth now
  let last_fed ← parseYMD last_feeding_date
  let recommended_days ←
    if 3 ≤ feeding_history.length then do
      let ds ← feeding_history.mapM parseYMD
      let intervals := List.zipWith (fun a b => |PDateTime.subDays a b|) ds ds.tail
      if intervals.isEmpty then pure rec0
      else
        let avg : ℚ := ((intervals.map (fun n => (n : ℚ))).sum) / intervals.length
        pure (if (min_days : ℚ) ≤ avg ∧ avg ≤ (max_days : ℚ) then pyRound avg else rec0)
    else pure rec0
  let suggested := last_fed.addDays recommended_days
  let earliest := last_fed.addDays min_days
  let latest := last_fed.addDays max_days
  let days_until := suggested.subDays now
  let status :=
    if days_until < 0 then "overdue"
    else if days_until = 0 then "today"
    else if days_until = 1 then "tomorrow"
    else if days_until ≤ 2 then "soon"
    else "scheduled"
  pure
    { suggested_date := some suggested.day
      earliest_date := some earliest.day
      latest_date := some latest.day
      days_until := some days_until
      status := status
      recommended_interval := recommended_days
      age_category := get_age_category date_of_birth now
      confidence := if 3 ≤ feeding_history.length then "high" else "medium" }

/-- Source function `get_feeding_recommendation` (feeding_schedules.py lines 208-245).
The reptile is given by its species and optional date of birth; the
feeding logs by their `feeding_date` strings, most recent first. -/
def get_feeding_recommendation (species : String) (date_of_birth : Option String)
    (feeding_logs : List String) (now : PDateTime) : Option Recommendation :=
  match feeding_logs with
  | [] =>
    let t := get_feeding_interval species date_of_birth now
    some
      { suggested_date := none
        earliest_date := none
        latest_date := none
        days_until := none
        status := "no_history"
        recommended_interval := t.2.2
        age_category := get_age_category date_of_birth now
        confidence := "low" }
  | last :: _ =>
    suggest_next_feeding_date species last date_of_birth (feeding_logs.take 10) now

/-- A row of the `feeding_reminders` table (one per reptile; the unique
key on `reptile_id` is modelled by carrying at most one `Reminder` per
animal).  Stored dates are day ordinals of their `YYYY-MM-DD` strings. -/
structure Reminder where
  feeding_interval_days : Int
  food_type : Option String
  food_size : Option String
  quantity_per_feeding : Int
  last_fed_date : Option Int
  next_feeding_date : Option Int
  is_active : Bool
  deriving Repr, DecidableEq

/-- Source method `add_feeding_reminder` (reptile_tracker_db.py lines 1110-1134): on
an existing row, `UPDATE ... SET feeding_interval_days = ?, is_active = 1`;
otherwise `INSERT` with the schema defaults (`quantity_per_feeding` 1,
`is_active` 1, all other modelled columns NULL). -/
def add_feeding_reminder (existing : Option Reminder) (feeding_interval_days : Int) : Reminder :=
  match existing with
  | some r => { r with feeding_interval_days := feeding_interval_days, is_active := true }
  | none =>
    { feeding_interval_days := feeding_interval_days
      food_type := none
      food_size := none
      quantity_per_feeding := 1
      last_fed_date := none
      next_feeding_date := none
      is_active := true }

/-- Source method `update_feeding_reminder_dates` (reptile_tracker_db.py lines
1136-1170): if an active reminder exists, parse the feeding date with
the format probe (falling back to `now` when every format fails), then
store the date part and the date part plus the current interval. -/
def update_feeding_reminder_dates (rem : Option Reminder) (last_fed_date : String)
    (now : PDateTime) : Option Reminder :=
  match rem with
  | none => none
  | some r =>
    if r.is_active then
      let last_fed := (parseFeedingDate last_fed_date).getD now
      let next_feeding := last_fed.addDays r.feeding_interval_days
      some { r with
             last_fed_date := some last_fed.day
             next_feeding_date := some next_feeding.day }
    else some r

/-- Source method `toggle_feeding_reminder` (reptile_tracker_db.py lines 1232-1240). -/
def toggle_feeding_reminder (rem : Option Reminder) (is_active : Bool) : Option Reminder :=
  rem.map (fun r => { r with is_active := is_active })

/-- The POST branch of the `set_feeding_reminder` route (app.py lines
1681-1697): validate the interval, upsert via `add_feeding_reminder`,
then — only if the animal has at least one feeding log — recompute the
reminder dates from the most recent log's `feeding_date`.
`feeding_logs` is the animal's feeding-log `feeding_date` column,
most recent first (`get_feeding_logs` with `limit=1` takes its head). -/
def set_feeding_reminder_route (rem : Option Reminder) (feeding_logs : List String)
    (feeding_interval_days : Int) (now : PDateTime) : Option Reminder :=
  if feeding_interval_days < 1 then rem
  else
    let rem' := some (add_feeding_reminder rem feeding_interval_days)
    match feeding_logs with
    | [] => rem'
    | d :: _ => update_feeding_reminder_dates rem' d now

/-- A row of `food_inventory` (only the columns the engine computes
with). -/
structure FoodItem where
  id : Int
  food_type : String
  food_size : String
  quantity : Int
  deriving Repr, DecidableEq

/-- A row of the append-only `inventory_transactions` table. -/
structure InvTransaction where
  inventory_id : Int
  transaction_type : String
  quantity : Int
  transaction_date : Int
  deriving Repr, DecidableEq

/-- The columns of a `feeding_logs` row read by the consumption
forecaster; `feeding_date` as a day ordinal. -/
structure FeedingLogRow where
  inventory_id : Option Int
  auto_deducted : Bool
  ate : Bool
  quantity : Int
  feeding_date : Int
  deriving Repr, DecidableEq

/-- The inventory-side database state. -/
structure InvState where
  items : List FoodItem
  transactions : List InvTransaction
  feeding_logs : List FeedingLogRow
  deriving Repr, DecidableEq

/-- Source method `get_food_item` (lines 1684-1688): row lookup by primary key. -/
def get_food_item (s : InvState) (inventory_id : Int) : Option FoodItem :=
  s.items.find? (fun it => it.id = inventory_id)

/-- Source method `get_food_item_by_type` (lines 1690-1713): case-insensitive lookup
on `(food_type, food_size)`. -/
def get_food_item_by_type (s : InvState) (food_type food_size : String) : Option FoodItem :=
  s.items.find? (fun it =>
    strLower it.food_type = strLower food_type && strLower it.food_size = strLower food_size)

/-- Source method `update_food_quantity` (reptile_tracker_db.py lines 1715-1746):
read the row, clamp the new balance at zero, write it back, and append
a transaction carrying the *requested* signed delta. -/
def update_food_quantity (s : InvState) (inventory_id : Int) (quantity_change : Int)
    (transaction_type : String) (today : Int) : Bool × InvState :=
  match get_food_item s inventory_id with
  | none => (false, s)
  | some item =>
    let nq := item.quantity + quantity_change
    let new_quantity := if nq < 0 then 0 else nq
    (true,
     { s with
       items := s.items.map (fun it =>
         if it.id = inventory_id then { it with quantity := new_quantity } else it)
       transactions := s.transactions ++
         [⟨inventory_id, transaction_type, quantity_change, today⟩] })

/-- Source method `deduct_food_from_feeding` (reptile_tracker_db.py lines 1748-1762):
the Debit operation — resolve the SKU and apply a negative
`update_food_quantity` with transaction type `feeding`. -/
def deduct_food_from_feeding (s : InvState) (food_type food_size : String)
    (quantity : Int) (today : Int) : Bool × InvState :=
  match get_food_item_by_type s food_type food_size with
  | none => (false, s)
  | some item => update_food_quantity s item.id (-quantity) "feeding" today

/-- A sequence of Debit calls, applied left to right; each element is
`(food_type, food_size, quantity, today)`. -/
def applyDebits (s : InvState) (ops : List (String × String × Int × Int)) : InvState :=
  ops.foldl (fun st op => (deduct_food_from_feeding st op.1 op.2.1 op.2.2.1 op.2.2.2).2) s

/-- The `WHERE` clause of the forecaster's consumption query
(reptile_tracker_db.py lines 1823-1834): feeding logs for this item,
auto-deducted, eaten, and dated inside the lookback window. -/
def qualifiesForForecast (invId windowStart : Int) (l : FeedingLogRow) : Bool :=
  l.inventory_id = some invId && l.auto_deducted && l.ate && windowStart ≤ l.feeding_date

/-- The consumption-rate computation of `get_inventory_forecast`
(reptile_tracker_db.py lines 1836-1873): total quantity of the
qualifying feeding logs divided by the inclusive span between their
first and last dates; 0 when there are no qualifying logs. -/
def consumption_per_day (s : InvState) (item : FoodItem) (today days_lookback : Int) : ℚ :=
  let q := s.feeding_logs.filter (qualifiesForForecast item.id (today - days_lookback))
  match q with
  | [] => 0
  | l :: ls =>
    let dates := (l :: ls).map (·.feeding_date)
    let first := dates.foldl min l.feeding_date
    let last := dates.foldl max l.feeding_date
    let days_span := last - first + 1
    if 0 < days_span then
      (((l :: ls).map (·.quantity)).sum : ℚ) / (days_span : ℚ)
    else 0

/-- The fields of a forecast record the reorder policy produces
(reptile_tracker_db.py lines 1889-1913; status/date fields that no
claim concerns are not modelled). -/
structure ForecastRow where
  inventory_id : Int
  current_quantity : Int
  consumption_per_day : ℚ
  needs_reorder : Bool
  suggested_order_qty : Int
  deriving Repr, DecidableEq

/-- The per-item body of `get_inventory_forecast` (lines 1821-1914).
Python's `int()` on the nonnegative float `consumption_per_day * 30`
truncates, i.e. takes the floor. -/
def forecast_item (s : InvState) (item : FoodItem) (today days_lookback : Int) : ForecastRow :=
  let rate := consumption_per_day s item today days_lookback
  { inventory_id := item.id
    current_quantity := item.quantity
    consumption_per_day := rate
    needs_reorder := if 0 < rate then decide ((item.quantity : ℚ) ≤ rate * 14) else false
    suggested_order_qty := if 0 < rate then max ⌊rate * 30⌋ 10 else 10 }

/-- Source method `get_inventory_forecast` without an `inventory_id` argument
(lines 1805-1916): forecast every item currently in stock. -/
def get_inventory_forecast (s : InvState) (today : Int) (days_lookback : Int) : List ForecastRow :=
  (s.items.filter (fun it => 0 < it.quantity)).map
    (fun it => forecast_item s it today days_lookback)

/-- Modelled from the spec: the consumption rate as §4.7 and the claim
describe it — computed from the `feeding`-type rows of the
inventory-transaction log inside the lookback window, summing the
consumed quantities (the negation of the signed deltas) and dividing by
the inclusive span of their dates.  The source instead reads the
`feeding_logs` table; this definition exists to compare the two. -/
def specConsumptionRate (transactions : List InvTransaction)
    (invId today days_lookback : Int) : ℚ :=
  let q := transactions.filter (fun t =>
    t.inventory_id = invId && t.transaction_type = "feeding" &&
      today - days_lookback ≤ t.transaction_date && t.transaction_date ≤ today)
  match q with
  | [] => 0
  | t :: ts =>
    let dates := (t :: ts).map (·.transaction_date)
    let first := dates.foldl min t.transaction_date
    let last := dates.foldl max t.transaction_date
    (((t :: ts).map (fun x => -x.quantity)).sum : ℚ) / ((last - first + 1 : Int) : ℚ)

/-- The rows the shopping-list query selects (reptile_tracker_db.py
lines 1257-1274): active reminders with food type, food size and next
feeding date all set, together with the reptile's name. -/
structure ReminderRow where
  reptile_name : String
  food_type : String
  food_size : String
  quantity_per_feeding : Int
  feeding_interval_days : Int
  next_feeding_date : Int
  deriving Repr, DecidableEq

/-- The shopping-list query, from the per-animal reminder store. -/
def shoppingReminderRows (reminders : List (String × Reminder)) : List ReminderRow :=
  reminders.filterMap (fun p =>
    match p.2.food_type, p.2.food_size, p.2.next_feeding_date with
    | some ft, some fs, some nd =>
      if p.2.is_active then
        some ⟨p.1, ft, fs, p.2.quantity_per_feeding, p.2.feeding_interval_days, nd⟩
      else none
    | _, _, _ => none)

/-- The `while current_date <= end_date` loop of `get_shopping_list`
(lines 1294-1299), with explicit fuel; the fuel passed by
`countFeedings` suffices whenever the interval is at least 1. -/
def countFeedingsAux : Nat → Int → Int → Int → Nat
  | 0, _, _, _ => 0
  | fuel + 1, current, stop, interval =>
    if current ≤ stop then 1 + countFeedingsAux fuel (current + interval) stop interval
    else 0

/-- Number of feedings the forward simulation counts in
`[start, stop]` stepping by `interval`. -/
def countFeedings (start stop interval : Int) : Nat :=
  countFeedingsAux (stop + 1 - start).toNat start stop interval

/-- One contribution to a shopping-list entry: reptile name, feeding
count, quantity. -/
abbrev Contrib := String × Nat × Int

/-- Insert-or-accumulate on the `food_needs` dict (lines 1303-1324);
Python dicts keep insertion order, so a fresh key goes to the back and
an existing key is updated in place. -/
def updateNeeds (acc : List ((String × String) × (Int × List Contrib)))
    (key : String × String) (qty : Int) (c : Contrib) :
    List ((String × String) × (Int × List Contrib)) :=
  match acc with
  | [] => [(key, (qty, [c]))]
  | (k, (q, cs)) :: rest =>
    if k = key then (k, (q + qty, cs ++ [c])) :: rest
    else (k, (q, cs)) :: updateNeeds rest key qty c

/-- The `food_needs` accumulation loop of `get_shopping_list`
(lines 1282-1324). -/
def foodNeeds (rows : List ReminderRow) (today stop : Int) :
    List ((String × String) × (Int × List Contrib)) :=
  rows.foldl (fun acc row =>
    let start := max today row.next_feeding_date
    let cnt := countFeedings start stop row.feeding_interval_days
    if 0 < cnt then
      updateNeeds acc (row.food_type, row.food_size)
        (cnt * row.quantity_per_feeding) (row.reptile_name, cnt, cnt * row.quantity_per_feeding)
    else acc) []

/-- A shopping-list entry (lines 1345-1352). -/
structure ShoppingEntry where
  food_type : String
  food_size : String
  quantity_needed : Int
  current_stock : Int
  shortage : Int
  reptiles : List Contrib
  deriving Repr, DecidableEq

/-- Source method `get_shopping_list` (reptile_tracker_db.py lines 1244-1357): select
the qualifying reminders, simulate the feedings over the horizon,
aggregate per (food type, food size), net against current stock
(0 when the SKU is absent), and sort by shortage, highest first. -/
def currentStockFor (s : InvState) (food_type food_size : String) : Int :=
  match get_food_item_by_type s food_type food_size with
  | some it => it.quantity
  | none => 0

def get_shopping_list (s : InvState) (reminders : List (String × Reminder))
    (today days_ahead : Int) : List ShoppingEntry :=
  let stop := today + days_ahead
  let needs := foodNeeds (shoppingReminderRows reminders) today stop
  let entries := needs.map (fun e =>
    let stock := currentStockFor s e.1.1 e.1.2
    { food_type := e.1.1
      food_size := e.1.2
      quantity_needed := e.2.1
      current_stock := stock
      shortage := max 0 (e.2.1 - stock)
      reptiles := e.2.2 : ShoppingEntry })
  entries.mergeSort (fun a b => b.shortage ≤ a.shortage)

/-! Specification-side definitions, written from the spec's wording,
for comparison with the embedded source functions. -/

/-- The interval lookup as §4.2 words it: the first table entry, in
declaration order, whose key case-insensitively contains the query or
is contained in it; inside it the age category's triple, with the
entry's `adult` bucket as fallback; the `default` table's triple when
no key matches. -/
def get_feeding_interval_spec (species age_category : String) : Triple :=
  match FEEDING_SCHEDULES.find? (fun e =>
      pyIn (strLower e.1) (strLower species) || pyIn (strLower species) (strLower e.1)) with
  | some e =>
    match findCat e.2 age_category with
    | some t => t
    | none => (findCat e.2 "adult").getD ((findCat defaultSchedule "adult").getD (0, 0, 0))
  | none => (findCat defaultSchedule age_category).getD (0, 0, 0)

/-- The average of the absolute day-deltas between consecutive history
dates, as the predictor claim words it. -/
def historyAvgInterval (history : List String) : Option ℚ :=
  match history.mapM parseYMD with
  | none => none
  | some ds =>
    let deltas := List.zipWith (fun a b => |PDateTime.subDays a b|) ds ds.tail
    if deltas.isEmpty then none
    else some ((deltas.map (fun n => (n : ℚ))).sum / deltas.length)

/-- The quantity a single reminder row contributes to the shopping
list: feeding count over the horizon times quantity per feeding. -/
def rowNeed (today stop : Int) (row : ReminderRow) : Int :=
  (countFeedings (max today row.next_feeding_date) stop row.feeding_interval_days : Int) *
    row.quantity_per_feeding

/-- Total projected need for one SKU key, summed across all qualifying
reminder rows. -/
def neededForKey (rows : List ReminderRow) (today stop : Int) (key : String × String) : Int :=
  ((rows.filter (fun row => (row.food_type, row.food_size) = key)).map (rowNeed today stop)).sum

/-- Association lookup in the `food_needs` accumulator. -/
def lookupNeed (acc : List ((String × String) × (Int × List Contrib)))
    (key : String × String) : Option (Int × List Contrib) :=
  (acc.find? (fun e => e.1 = key)).map (·.2)

/-- Accumulated quantity for a key, 0 when absent. -/
def needAmt (acc : List ((String × String) × (Int × List Contrib)))
    (key : String × String) : Int :=
  ((lookupNeed acc key).map (·.1)).getD 0

/-! Concrete database states used by the example theorems. -/

/-- A reminder with a 14-day cadence and no recorded dates. -/
def remA : Reminder :=
  { feeding_interval_days := 14, food_type := none, food_size := none
    quantity_per_feeding := 1, last_fed_date := none, next_feeding_date := none
    is_active := true }

/-- A reminder satisfying `next = last + interval` for interval 7. -/
def remB : Reminder :=
  { feeding_interval_days := 7, food_type := none, food_size := none
    quantity_per_feeding := 1, last_fed_date := some 0, next_feeding_date := some 7
    is_active := true }

/-- Stock of 20 large rats, item id 1; empty ledgers. -/
def invA : InvState :=
  { items := [⟨1, "Rat", "Large", 20⟩], transactions := [], feeding_logs := [] }

/-- Stock of 20 large rats; one `feeding` transaction of −5 dated day 0;
no feeding logs. -/
def invB : InvState :=
  { items := [⟨1, "Rat", "Large", 20⟩]
    transactions := [⟨1, "feeding", -5, 0⟩]
    feeding_logs := [] }

/-- Same transaction log as `invB`, but one auto-deducted eaten feeding
log of 5 on day 0. -/
def invC : InvState :=
  { items := [⟨1, "Rat", "Large", 20⟩]
    transactions := [⟨1, "feeding", -5, 0⟩]
    feeding_logs := [⟨some 1, true, true, 5, 0⟩] }

/-- Stock of 20 large rats; feeding logs totalling 3 items over the 7-day span
from day 0 to day 6 (rate 3/7). -/
def invD : InvState :=
  { items := [⟨1, "Rat", "Large", 20⟩]
    transactions := []
    feeding_logs := [⟨some 1, true, true, 1, 0⟩, ⟨some 1, true, true, 2, 6⟩] }

/-- The prediction for an unknown species ("x", matching no table key,
hence the default adult triple (14, 21, 14)), last fed 2024-01-01
(ordinal 19723), empty history, now = day 19730. -/
def confW : Recommendation :=
  { suggested_date := some 19737, earliest_date := some 19737
    latest_date := some 19744, days_until := some 7
    status := "scheduled", recommended_interval := 14
    age_category := "adult", confidence := "medium" }

/-- A small household: two rat-eaters sharing a SKU, one mouse-eater
whose SKU is not stocked, one deactivated reminder and one with no food
preference. -/
def remW : List (String × Reminder) :=
  [("Rex", ⟨7, some "Rat", some "Large", 2, some (-5), some 2, true⟩),
   ("Sly", ⟨10, some "Rat", some "Large", 1, some (-13), some (-3), true⟩),
   ("Moe", ⟨5, some "Mouse", some "Small", 1, some (-5), some 0, true⟩),
   ("Off", ⟨3, some "Rat", some "Large", 9, some 0, some 0, false⟩),
   ("NoF", ⟨3, none, none, 1, some 0, some 0, true⟩)]

/-! Theorems. -/

/-- C1: after every `RecordFeeding` call for an animal with an active
reminder, the reminder's `last_fed_date` equals the normalized
(date-only) feeding date — the day part of the parsed input, or of
"now" on parse failure — and `next_feeding_date` equals that date plus
the reminder's current `interval_days`, so the updated active reminder
satisfies `next_feeding_date = last_fed_date + interval_days`
exactly. -/
theorem recordFeeding_establishes_invariant (rem : Option Reminder) (r : Reminder)
    (s : String) (now : PDateTime) (hrem : rem = some r) (hact : r.is_active = true) :
    ∃ d : Int,
      d = ((parseFeedingDate s).getD now).day ∧
      update_feeding_reminder_dates rem s now =
        some { r with last_fed_date := some d
                      next_feeding_date := some (d + r.feeding_interval_days) } := by
  subst hrem
  refine ⟨((parseFeedingDate s).getD now).day, rfl, ?_⟩
  simp [update_feeding_reminder_dates, hact, PDateTime.addDays]

theorem recordFeeding_establishes_invariant_witness :
    remA.is_active = true ∧
    ∃ d : Int,
      d = ((parseFeedingDate "2024-01-15").getD ⟨0, 0⟩).day ∧
      update_feeding_reminder_dates (some remA) "2024-01-15" ⟨0, 0⟩ =
        some { remA with last_fed_date := some d
                         next_feeding_date := some (d + remA.feeding_interval_days) } :=
  ⟨rfl, recordFeeding_establishes_invariant (some remA) remA "2024-01-15" ⟨0, 0⟩ rfl rfl⟩

/-- C9: `RecordFeeding` never rejects a feeding for a malformed date:
it probes the fixed format list (datetime `%Y-%m-%d %H:%M:%S` first,
then `%Y-%m-%d`, `%d/%m/%Y`, `%m/%d/%Y`), substitutes "now" when every
format fails, and in every case writes a date-only `last_fed_date` with
`next_feeding_date` equal to the resolved date plus `interval_days`. -/
theorem recordFeeding_lenient_dates (r : Reminder) (s : String) (now : PDateTime)
    (hact : r.is_active = true) :
    ∃ d : Int,
      update_feeding_reminder_dates (some r) s now =
        some { r with last_fed_date := some d
                      next_feeding_date := some (d + r.feeding_interval_days) } ∧
      (∀ dt, parseYMDHMS s = some dt → d = dt.day) ∧
      (parseYMDHMS s = none → ∀ dt, parseYMD s = some dt → d = dt.day) ∧
      (parseFeedingDate s = none → d = now.day) := by
  refine ⟨((parseFeedingDate s).getD now).day, ?_, ?_, ?_, ?_⟩
  · simp [update_feeding_reminder_dates, hact, PDateTime.addDays]
  · intro dt h
    simp [parseFeedingDate, h, Option.orElse]
  · intro h1 dt h2
    simp [parseFeedingDate, h1, h2, Option.orElse]
  · intro h
    simp [h]

theorem recordFeeding_lenient_dates_witness :
    remB.is_active = true ∧
    ∃ d : Int,
      update_feeding_reminder_dates (some remB) "not a date" ⟨5, 100⟩ =
        some { remB with last_fed_date := some d
                         next_feeding_date := some (d + remB.feeding_interval_days) } ∧
      (∀ dt, parseYMDHMS "not a date" = some dt → d = dt.day) ∧
      (parseYMDHMS "not a date" = none →
        ∀ dt, parseYMD "not a date" = some dt → d = dt.day) ∧
      (parseFeedingDate "not a date" = none → d = (5 : Int)) :=
  ⟨rfl, recordFeeding_lenient_dates remB "not a date" ⟨5, 100⟩ rfl⟩

/-- C10: upserting a reminder for an animal that already has a reminder
record — active or previously deactivated — sets `is_active` back to 1
and the new interval, and leaves the stored food type, food size,
quantity per feeding, and both dates unchanged. -/
theorem setReminder_upsert_frame (r : Reminder) (n : Int) :
    (add_feeding_reminder (some r) n).is_active = true ∧
    (add_feeding_reminder (some r) n).feeding_interval_days = n ∧
    (add_feeding_reminder (some r) n).food_type = r.food_type ∧
    (add_feeding_reminder (some r) n).food_size = r.food_size ∧
    (add_feeding_reminder (some r) n).quantity_per_feeding = r.quantity_per_feeding ∧
    (add_feeding_reminder (some r) n).last_fed_date = r.last_fed_date ∧
    (add_feeding_reminder (some r) n).next_feeding_date = r.next_feeding_date :=
  ⟨rfl, rfl, rfl, rfl, rfl, rfl, rfl⟩

/-- Updating the quantity of every row with a given id rewrites the row
`find?` locates for that id. -/
theorem find_map_setQuantity (l : List FoodItem) (idv newq : Int) (item : FoodItem)
    (h : l.find? (fun it => it.id = idv) = some item) :
    (l.map (fun it => if it.id = idv then { it with quantity := newq } else it)).find?
        (fun it => it.id = idv) = some { item with quantity := newq } := by
  induction l with
  | nil => simp at h
  | cons a t ih =>
    by_cases ha : a.id = idv
    · rw [List.find?_cons_of_pos _ (by simpa using ha)] at h
      obtain rfl : a = item := by simpa using h
      simp only [List.map_cons, if_pos ha]
      exact List.find?_cons_of_pos _ (by simpa using ha)
    · rw [List.find?_cons_of_neg _ (by simpa using ha)] at h
      simp only [List.map_cons, if_neg ha]
      rw [List.find?_cons_of_neg _ (by simpa using ha)]
      exact ih h

/-- A single Debit keeps every quantity nonnegative that was
nonnegative before (the touched row is clamped at zero, the rest are
untouched). -/
theorem deduct_preserves_nonneg (s : InvState) (ft fs : String) (q today : Int)
    (hs : ∀ it ∈ s.items, 0 ≤ it.quantity) :
    ∀ it ∈ (deduct_food_from_feeding s ft fs q today).2.items, 0 ≤ it.quantity := by
  cases hby : get_food_item_by_type s ft fs with
  | none =>
    simp only [deduct_food_from_feeding, hby]
    exact hs
  | some item0 =>
    cases hid : get_food_item s item0.id with
    | none =>
      simp only [deduct_food_from_feeding, hby, update_food_quantity, hid]
      exact hs
    | some item =>
      simp only [deduct_food_from_feeding, hby, update_food_quantity, hid]
      intro it hit
      simp only [List.mem_map] at hit
      obtain ⟨y, hy, rfl⟩ := hit
      by_cases hyid : y.id = item0.id
      · simp only [if_pos hyid]
        split <;> omega
      · simp only [if_neg hyid]
        exact hs y hy

/-- C3: a Debit of `q` against a SKU whose stored row holds quantity
`s` leaves the row at `max 0 (s − q)` while the appended `feeding`
transaction records the requested delta `−q` even when clamped; and
after any sequence of Debit calls every quantity on hand is still
nonnegative. -/
theorem debit_clamps_and_logs :
    (∀ (s : InvState) (ft fs : String) (q today : Int) (item0 item : FoodItem),
        get_food_item_by_type s ft fs = some item0 →
        get_food_item s item0.id = some item →
        (deduct_food_from_feeding s ft fs q today).1 = true ∧
        get_food_item (deduct_food_from_feeding s ft fs q today).2 item0.id =
          some { item with quantity := max 0 (item.quantity - q) } ∧
        (deduct_food_from_feeding s ft fs q today).2.transactions =
          s.transactions ++ [⟨item0.id, "feeding", -q, today⟩]) ∧
    (∀ (s : InvState) (ops : List (String × String × Int × Int)),
        (∀ it ∈ s.items, 0 ≤ it.quantity) →
        ∀ it ∈ (applyDebits s ops).items, 0 ≤ it.quantity) := by
  constructor
  · intro s ft fs q today item0 item h0 h1
    have hmax : (if item.quantity + -q < 0 then 0 else item.quantity + -q) =
        max 0 (item.quantity - q) := by omega
    simp only [deduct_food_from_feeding, h0, update_food_quantity, h1, hmax]
    refine ⟨trivial, ?_, trivial⟩
    exact find_map_setQuantity s.items item0.id _ item h1
  · intro s ops
    induction ops generalizing s with
    | nil => intro hs; simpa [applyDebits] using hs
    | cons op rest ih =>
      intro hs
      have step := deduct_preserves_nonneg s op.1 op.2.1 op.2.2.1 op.2.2.2 hs
      simpa [applyDebits, List.foldl_cons] using ih _ step

theorem debit_clamps_and_logs_witness :
    get_food_item_by_type invA "Rat" "Large" = some ⟨1, "Rat", "Large", 20⟩ ∧
    get_food_item invA 1 = some ⟨1, "Rat", "Large", 20⟩ ∧
    ((deduct_food_from_feeding invA "Rat" "Large" 25 3).1 = true ∧
      get_food_item (deduct_food_from_feeding invA "Rat" "Large" 25 3).2 1 =
        some ⟨1, "Rat", "Large", max 0 (20 - 25)⟩ ∧
      (deduct_food_from_feeding invA "Rat" "Large" 25 3).2.transactions =
        invA.transactions ++ [⟨1, "feeding", -25, 3⟩]) ∧
    ∀ it ∈ (applyDebits invA [("Rat", "Large", 25, 3), ("rat", "large", 5, 4)]).items,
      0 ≤ it.quantity :=
  ⟨rfl, rfl,
    debit_clamps_and_logs.1 invA "Rat" "Large" 25 3 ⟨1, "Rat", "Large", 20⟩
      ⟨1, "Rat", "Large", 20⟩ rfl rfl,
    debit_clamps_and_logs.2 invA [("Rat", "Large", 25, 3), ("rat", "large", 5, 4)]
      (by decide)⟩

/-- C5 counterexample: `SetReminder` on an animal whose reminder
satisfies `next = last + interval` for interval 7 but which has no
feeding logs changes the interval to 10 without recomputing
`next_feeding_date`, so the invariant `next = last + interval` fails
afterwards (7 ≠ 0 + 10). -/
theorem setReminder_stale_counterexample :
    set_feeding_reminder_route (some remB) [] 10 ⟨0, 0⟩ =
      some { feeding_interval_days := 10, food_type := none, food_size := none
             quantity_per_feeding := 1, last_fed_date := some 0
             next_feeding_date := some 7, is_active := true } ∧
    (7 : Int) ≠ 0 + 10 :=
  ⟨rfl, by decide⟩

/-- C5 (amended): after `SetReminder` changes `interval_days`, the
invariant `next_feeding_date = last_fed_date + interval_days` holds
again *provided the animal has at least one feeding log* — the route
then recomputes both dates from the most recent log; when the animal
has no feeding logs the stored dates are left exactly as they were, so
an interval change can leave `next_feeding_date` stale. -/
theorem setReminder_recompute_amended :
    (∀ (rem : Option Reminder) (d : String) (rest : List String) (n : Int) (now : PDateTime),
        1 ≤ n →
        ∃ l : Int,
          l = ((parseFeedingDate d).getD now).day ∧
          set_feeding_reminder_route rem (d :: rest) n now =
            some { add_feeding_reminder rem n with
                   last_fed_date := some l, next_feeding_date := some (l + n) }) ∧
    (∀ (rem : Option Reminder) (n : Int) (now : PDateTime),
        1 ≤ n →
        set_feeding_reminder_route rem [] n now = some (add_feeding_reminder rem n)) := by
  constructor
  · intro rem d rest n now hn
    refine ⟨((parseFeedingDate d).getD now).day, rfl, ?_⟩
    have hact : (add_feeding_reminder rem n).is_active = true := by
      cases rem <;> rfl
    have hint : (add_feeding_reminder rem n).feeding_interval_days = n := by
      cases rem <;> rfl
    simp only [set_feeding_reminder_route, if_neg (by omega : ¬ n < 1)]
    simp only [update_feeding_reminder_dates, hact, if_true, PDateTime.addDays, hint]
  · intro rem n now hn
    simp only [set_feeding_reminder_route, if_neg (by omega : ¬ n < 1)]

theorem setReminder_recompute_amended_witness :
    (1 : Int) ≤ 10 ∧
    (∃ l : Int,
      l = ((parseFeedingDate "2024-01-15").getD ⟨0, 0⟩).day ∧
      set_feeding_reminder_route (some remB) ["2024-01-15"] 10 ⟨0, 0⟩ =
        some { add_feeding_reminder (some remB) 10 with
               last_fed_date := some l, next_feeding_date := some (l + 10) }) ∧
    set_feeding_reminder_route (some remB) [] 10 ⟨0, 0⟩ =
      some (add_feeding_reminder (some remB) 10) :=
  ⟨by decide,
   setReminder_recompute_amended.1 (some remB) "2024-01-15" [] 10 ⟨0, 0⟩ (by decide),
   setReminder_recompute_amended.2 (some remB) 10 ⟨0, 0⟩ (by decide)⟩

/-- C2 counterexample: a prediction computed from a feeding history of
three events whose average absolute day-delta is 1 — outside the
accepted range [14, 21] of the resolved interval triple, so the
averaged interval was *not* accepted (the recommended interval stays at
the table value 14) — still reports confidence `"high"`, where the
claim requires `"medium"`. -/
theorem confidence_counterexample :
    get_feeding_interval "Ball Python" none ⟨19730, 0⟩ = (14, 21, 14) ∧
    historyAvgInterval ["2024-01-10", "2024-01-09", "2024-01-08"] = some 1 ∧
    ¬ ((14 : ℚ) ≤ 1) ∧
    (suggest_next_feeding_date "Ball Python" "2024-01-10" none
        ["2024-01-10", "2024-01-09", "2024-01-08"] ⟨19730, 0⟩).map
        (fun r => (r.confidence, r.recommended_interval)) =
      some ("high", 14) := by
  have hmap : (["2024-01-10", "2024-01-09", "2024-01-08"] : List String).mapM parseYMD =
      some [⟨19732, 0⟩, ⟨19731, 0⟩, ⟨19730, 0⟩] := by decide
  have htr : get_feeding_interval "Ball Python" none ⟨19730, 0⟩ = (14, 21, 14) := by decide
  have hlast : parseYMD "2024-01-10" = some ⟨19732, 0⟩ := by decide
  refine ⟨htr, ?_, by norm_num, ?_⟩
  · simp only [historyAvgInterval, hmap, List.zipWith, List.tail_cons, PDateTime.subDays,
      List.isEmpty, List.map, List.sum_cons, List.sum_nil, List.length]
    norm_num
  · simp only [suggest_next_feeding_date, htr, hlast, hmap, List.length_cons,
      List.length_nil, List.zipWith, List.tail_cons, PDateTime.subDays, List.isEmpty,
      List.map, List.sum_cons, List.sum_nil, List.length, Option.bind_some, Option.map_some,
      Option.some_bind, Option.bind_eq_bind]
    norm_num

/-- C2 (amended): the returned confidence is `"high"` exactly when the
feeding history has at least 3 events — whether or not the averaged
interval was accepted — and `"medium"` otherwise; when no feeding
history exists at all the predictor returns the reduced record with
status `"no_history"`, confidence `"low"`, and no
suggested/earliest/latest dates. -/
theorem confidence_amended :
    (∀ (species last : String) (dob : Option String) (history : List String)
        (now : PDateTime) (r : Recommendation),
        suggest_next_feeding_date species last dob history now = some r →
        ((r.confidence = "high" ↔ 3 ≤ history.length) ∧
         (r.confidence = "medium" ↔ history.length < 3))) ∧
    (∀ (species : String) (dob : Option String) (now : PDateTime),
        get_feeding_recommendation species dob [] now =
          some { suggested_date := none, earliest_date := none, latest_date := none
                 days_until := none, status := "no_history"
                 recommended_interval := (get_feeding_interval species dob now).2.2
                 age_category := get_age_category dob now, confidence := "low" }) := by
  constructor
  · intro species last dob history now r h
    rcases htriple : get_feeding_interval species dob now with ⟨mn, mx, rc⟩
    have hc : r.confidence = if 3 ≤ history.length then "high" else "medium" := by
      simp only [suggest_next_feeding_date, htriple, Option.bind_eq_bind', Option.some_bind,
        Option.bind_eq_some, Option.pure_def] at h
      obtain ⟨lf, -, h2⟩ := h
      split at h2
      · rename_i hl3
        simp only [Option.bind_eq_some] at h2
        obtain ⟨ds, -, h3⟩ := h2
        split at h3 <;> (injection h3 with h4; rw [← h4]; simp [hl3])
      · rename_i hl3
        injection h2 with h4
        rw [← h4]
        simp [hl3]
    rw [hc]
    by_cases hl : 3 ≤ history.length
    · rw [if_pos hl]
      exact ⟨⟨fun _ => hl, fun _ => rfl⟩,
             ⟨fun hme => absurd hme (by decide), fun hlt => absurd hl (by omega)⟩⟩
    · rw [if_neg hl]
      exact ⟨⟨fun hme => absurd hme (by decide), fun h3 => absurd h3 hl⟩,
             ⟨fun _ => by omega, fun _ => rfl⟩⟩
  · intro species dob now
    rfl

theorem confidence_amended_witness :
    ((confW.confidence = "high" ↔ 3 ≤ ([] : List String).length) ∧
     (confW.confidence = "medium" ↔ ([] : List String).length < 3)) ∧
    get_feeding_recommendation "Ball Python" none [] ⟨19730, 0⟩ =
      some { suggested_date := none, earliest_date := none, latest_date := none
             days_until := none, status := "no_history"
             recommended_interval :=
               (get_feeding_interval "Ball Python" none ⟨19730, 0⟩).2.2
             age_category := get_age_category none ⟨19730, 0⟩, confidence := "low" } :=
  ⟨confidence_amended.1 "x" "2024-01-01" none [] ⟨19730, 0⟩ confW (by decide),
   confidence_amended.2 "Ball Python" none ⟨19730, 0⟩⟩

/-- The species loop returns the first-match lookup. -/
theorem intervalLoop_eq_find (table : List (String × List (String × Triple)))
    (sl cat : String) :
    intervalLoop table sl cat =
      match table.find? (fun e => scheduleMatches sl e.1) with
      | some e =>
        match findCat e.2 cat with
        | some t => t
        | none => (findCat e.2 "adult").getD ((findCat defaultSchedule "adult").getD (0, 0, 0))
      | none => (findCat defaultSchedule cat).getD (0, 0, 0) := by
  induction table with
  | nil => rfl
  | cons a t ih =>
    obtain ⟨key, sched⟩ := a
    by_cases hm : scheduleMatches sl key
    · rw [intervalLoop, if_pos hm, List.find?_cons_of_pos _ (by simpa using hm)]
    · rw [intervalLoop, if_neg hm, List.find?_cons_of_neg _ (by simpa using hm), ih]

/-- C4: for every species string and age category, the interval lookup
returns the triple of the first table entry, in declaration order,
whose key case-insensitively contains the query or is contained in it
(the age category's triple inside it, falling back to that entry's
adult bucket when the category is absent), and the default table's
triple for the age category when no key matches — stated as equality
with a lookup written directly from the spec's words. -/
theorem interval_lookup_first_match :
    (∀ species cat : String,
        intervalLoop FEEDING_SCHEDULES (strLower species) cat =
          get_feeding_interval_spec species cat) ∧
    (∀ (species : String) (dob : Option String) (now : PDateTime),
        get_feeding_interval species dob now =
          get_feeding_interval_spec species (get_age_category dob now)) := by
  have key : ∀ species cat : String,
      intervalLoop FEEDING_SCHEDULES (strLower species) cat =
        get_feeding_interval_spec species cat := by
    intro species cat
    rw [intervalLoop_eq_find, get_feeding_interval_spec]
    rfl
  exact ⟨key, fun species dob now => key species (get_age_category dob now)⟩

/-- The rate of `invC` (5 consumed on day 0, inclusive span 1). -/
theorem invC_rate : consumption_per_day invC ⟨1, "Rat", "Large", 20⟩ 0 30 = 5 := by
  norm_num [consumption_per_day, qualifiesForForecast, invC, List.filter]

/-- The rate of `invD` (3 consumed over the 7-day span 0..6). -/
theorem invD_rate : consumption_per_day invD ⟨1, "Rat", "Large", 20⟩ 6 30 = 3 / 7 := by
  norm_num [consumption_per_day, qualifiesForForecast, invD, List.filter, List.foldl]

/-- C6 counterexample: `invB` and `invC` carry the *same* inventory
transaction log (one `feeding`-type transaction of −5 inside the
window), yet the forecaster computes rate 0 for `invB` and rate 5 for
`invC` — their feeding-log tables differ — while the claim's
transaction-log formula yields 5; so the rate is not computed from the
transaction log, and state outside the transaction log does affect
it. -/
theorem rate_source_counterexample :
    invB.transactions = invC.transactions ∧
    consumption_per_day invB ⟨1, "Rat", "Large", 20⟩ 0 30 = 0 ∧
    consumption_per_day invC ⟨1, "Rat", "Large", 20⟩ 0 30 = 5 ∧
    specConsumptionRate invB.transactions 1 0 30 = 5 ∧
    (0 : ℚ) ≠ 5 := by
  refine ⟨rfl, rfl, invC_rate, ?_, by norm_num⟩
  norm_num [specConsumptionRate, invB, List.filter, List.foldl]

/-- A `foldl min` never exceeds its seed. -/
theorem foldl_min_le_seed (l : List Int) (i : Int) : l.foldl min i ≤ i := by
  induction l generalizing i with
  | nil => exact le_refl i
  | cons x xs ih => exact le_trans (ih (min i x)) (min_le_left i x)

/-- A `foldl max` is at least its seed. -/
theorem seed_le_foldl_max (l : List Int) (i : Int) : i ≤ l.foldl max i := by
  induction l generalizing i with
  | nil => exact le_refl i
  | cons x xs ih => exact le_trans (le_max_left i x) (ih (max i x))

/-- C6 (amended): the per-SKU consumption rate is computed solely from
the feeding-log rows that reference the SKU with `auto_deducted` and
`ate` set and fall inside the lookback window — total quantity divided
by the inclusive span between their first and last dates, 0 when none
qualify — and the inventory-transaction log has no effect on it. -/
theorem rate_from_feeding_logs :
    (∀ (s : InvState) (item : FoodItem) (today lookback : Int) (l : FeedingLogRow)
        (ls : List FeedingLogRow),
        s.feeding_logs.filter (qualifiesForForecast item.id (today - lookback)) = l :: ls →
        consumption_per_day s item today lookback =
          ((l :: ls).map (fun x => (x.quantity : ℚ))).sum /
            ((((l :: ls).map (fun x => x.feeding_date)).foldl max l.feeding_date -
                ((l :: ls).map (fun x => x.feeding_date)).foldl min l.feeding_date + 1 : Int) : ℚ)) ∧
    (∀ (s : InvState) (item : FoodItem) (today lookback : Int),
        s.feeding_logs.filter (qualifiesForForecast item.id (today - lookback)) = [] →
        consumption_per_day s item today lookback = 0) ∧
    (∀ (s : InvState) (tx : List InvTransaction) (item : FoodItem) (today lookback : Int),
        consumption_per_day { s with transactions := tx } item today lookback =
          consumption_per_day s item today lookback) := by
  refine ⟨?_, ?_, ?_⟩
  · intro s item today lookback l ls hf
    have hspan : (0 : Int) <
        ((l :: ls).map (fun x => x.feeding_date)).foldl max l.feeding_date -
          ((l :: ls).map (fun x => x.feeding_date)).foldl min l.feeding_date + 1 := by
      have h1 := foldl_min_le_seed ((l :: ls).map (fun x => x.feeding_date)) l.feeding_date
      have h2 := seed_le_foldl_max ((l :: ls).map (fun x => x.feeding_date)) l.feeding_date
      omega
    rw [consumption_per_day, hf]
    simp only [if_pos hspan]
  · intro s item today lookback hf
    rw [consumption_per_day, hf]
  · intro s tx item today lookback
    rfl

theorem rate_from_feeding_logs_witness :
    invC.feeding_logs.filter (qualifiesForForecast 1 (0 - 30)) =
      (⟨some 1, true, true, 5, 0⟩ : FeedingLogRow) :: [] ∧
    consumption_per_day invC ⟨1, "Rat", "Large", 20⟩ 0 30 =
      ([(⟨some 1, true, true, 5, 0⟩ : FeedingLogRow)].map (fun x => (x.quantity : ℚ))).sum /
        ((([(⟨some 1, true, true, 5, 0⟩ : FeedingLogRow)].map (fun x => x.feeding_date)).foldl max 0 -
            ([(⟨some 1, true, true, 5, 0⟩ : FeedingLogRow)].map (fun x => x.feeding_date)).foldl min 0 + 1 : Int) : ℚ) ∧
    (invB.feeding_logs.filter (qualifiesForForecast 1 (0 - 30)) = [] ∧
      consumption_per_day invB ⟨1, "Rat", "Large", 20⟩ 0 30 = 0) ∧
    consumption_per_day { invB with transactions := [] } ⟨1, "Rat", "Large", 20⟩ 0 30 =
      consumption_per_day invB ⟨1, "Rat", "Large", 20⟩ 0 30 :=
  ⟨rfl,
   rate_from_feeding_logs.1 invC ⟨1, "Rat", "Large", 20⟩ 0 30 ⟨some 1, true, true, 5, 0⟩ [] rfl,
   ⟨rfl, rate_from_feeding_logs.2.1 invB ⟨1, "Rat", "Large", 20⟩ 0 30 rfl⟩,
   rate_from_feeding_logs.2.2 invB [] ⟨1, "Rat", "Large", 20⟩ 0 30⟩

/-- C7 counterexample: with rate 3/7 (3 items over 7 days) the source
computes `suggestedOrderQty = max(int(rate*30), 10) = 12` — `int()`
truncates — while the claim's `max(round(rate*30), 10)` is 13. -/
theorem reorder_round_counterexample :
    consumption_per_day invD ⟨1, "Rat", "Large", 20⟩ 6 30 = 3 / 7 ∧
    (forecast_item invD ⟨1, "Rat", "Large", 20⟩ 6 30).suggested_order_qty = 12 ∧
    max (round ((3 / 7 : ℚ) * 30)) 10 = 13 ∧
    (12 : Int) ≠ 13 := by
  have hfloor : ⌊(3 / 7 : ℚ) * 30⌋ = 12 := by
    rw [Int.floor_eq_iff]
    norm_num
  have hround : round ((3 / 7 : ℚ) * 30) = 13 := by
    rw [round_eq, Int.floor_eq_iff]
    norm_num
  refine ⟨invD_rate, ?_, by rw [hround]; norm_num, by norm_num⟩
  rw [forecast_item, invD_rate]
  simp only [if_pos (by norm_num : (0 : ℚ) < 3 / 7), hfloor]
  norm_num

/-- C7 (amended): for a positive computed rate the forecast reports
`needsReorder = (currentQty ≤ rate × 14)` and
`suggestedOrderQty = max(⌊rate × 30⌋, 10)` — floor (Python `int`
truncation of a nonnegative float), not rounding to nearest — and for
rate 0 it reports `needsReorder = false`, `suggestedOrderQty = 10`. -/
theorem reorder_policy_amended :
    ∀ (s : InvState) (item : FoodItem) (today lookback : Int),
      ((0 : ℚ) < consumption_per_day s item today lookback →
        (forecast_item s item today lookback).needs_reorder =
          decide ((item.quantity : ℚ) ≤ consumption_per_day s item today lookback * 14) ∧
        (forecast_item s item today lookback).suggested_order_qty =
          max ⌊consumption_per_day s item today lookback * 30⌋ 10) ∧
      (consumption_per_day s item today lookback = 0 →
        (forecast_item s item today lookback).needs_reorder = false ∧
        (forecast_item s item today lookback).suggested_order_qty = 10) := by
  intro s item today lookback
  constructor
  · intro h
    rw [forecast_item]
    simp only [if_pos h]
    exact ⟨trivial, trivial⟩
  · intro h
    rw [forecast_item]
    simp only [h, lt_self_iff_false, if_false]
    exact ⟨trivial, trivial⟩

theorem reorder_policy_amended_witness :
    (0 : ℚ) < consumption_per_day invC ⟨1, "Rat", "Large", 20⟩ 0 30 ∧
    ((forecast_item invC ⟨1, "Rat", "Large", 20⟩ 0 30).needs_reorder =
        decide (((20 : Int) : ℚ) ≤ consumption_per_day invC ⟨1, "Rat", "Large", 20⟩ 0 30 * 14) ∧
      (forecast_item invC ⟨1, "Rat", "Large", 20⟩ 0 30).suggested_order_qty =
        max ⌊consumption_per_day invC ⟨1, "Rat", "Large", 20⟩ 0 30 * 30⌋ 10) ∧
    (consumption_per_day invB ⟨1, "Rat", "Large", 20⟩ 0 30 = 0 →
      (forecast_item invB ⟨1, "Rat", "Large", 20⟩ 0 30).needs_reorder = false ∧
      (forecast_item invB ⟨1, "Rat", "Large", 20⟩ 0 30).suggested_order_qty = 10) :=
  ⟨by rw [invC_rate]; norm_num,
   (reorder_policy_amended invC ⟨1, "Rat", "Large", 20⟩ 0 30).1 (by rw [invC_rate]; norm_num),
   (reorder_policy_amended invB ⟨1, "Rat", "Large", 20⟩ 0 30).2⟩

/-- Fuel-indexed correctness of the shopping-list forward simulation:
with enough fuel and a positive step, the loop counts exactly the
multiples of the interval that stay inside the horizon. -/
theorem countFeedingsAux_spec (fuel : Nat) :
    ∀ (cur stop interval : Int), 1 ≤ interval → (stop + 1 - cur).toNat ≤ fuel →
      ∀ k : Nat, (cur + (k : Int) * interval ≤ stop ↔
        k < countFeedingsAux fuel cur stop interval) := by
  induction fuel with
  | zero =>
    intro cur stop interval hint hfuel k
    have hcs : stop < cur := by omega
    have hk0 : 0 ≤ (k : Int) * interval := mul_nonneg (by positivity) (by omega)
    simp only [countFeedingsAux]
    constructor
    · intro hk
      exact absurd hk (by linarith)
    · intro hk
      omega
  | succ n ih =>
    intro cur stop interval hint hfuel k
    by_cases hc : cur ≤ stop
    · rw [countFeedingsAux, if_pos hc]
      have hf' : (stop + 1 - (cur + interval)).toNat ≤ n := by omega
      cases k with
      | zero =>
        simp only [Nat.cast_zero, zero_mul, add_zero]
        exact ⟨fun _ => by omega, fun _ => hc⟩
      | succ j =>
        have hiff := ih (cur + interval) stop interval hint hf' j
        have hcast : ((j + 1 : Nat) : Int) * interval = (j : Int) * interval + interval := by
          push_cast
          ring
        rw [hcast]
        constructor
        · intro hk
          have hle : cur + interval + (j : Int) * interval ≤ stop := by linarith
          have := hiff.1 hle
          omega
        · intro hk
          have hj : j < countFeedingsAux n (cur + interval) stop interval := by omega
          have := hiff.2 hj
          linarith
    · rw [countFeedingsAux, if_neg hc]
      have hk0 : 0 ≤ (k : Int) * interval := mul_nonneg (by positivity) (by omega)
      constructor
      · intro hk
        exact absurd hk (by push_neg at hc; linarith)
      · intro hk
        omega

/-- The feedings counted in `[start, stop]` are exactly the
`start + k·interval ≤ stop`. -/
theorem countFeedings_spec (start stop interval : Int) (hint : 1 ≤ interval) :
    ∀ k : Nat, (start + (k : Int) * interval ≤ stop ↔
      k < countFeedings start stop interval) :=
  countFeedingsAux_spec _ start stop interval hint (Nat.le_refl _)

/-- Unfolding step for `lookupNeed` on a cons cell. -/
theorem lookupNeed_cons (e : (String × String) × (Int × List Contrib))
    (rest : List ((String × String) × (Int × List Contrib))) (key : String × String) :
    lookupNeed (e :: rest) key = if e.1 = key then some e.2 else lookupNeed rest key := by
  by_cases h : e.1 = key
  · rw [if_pos h, lookupNeed, List.find?_cons_of_pos]
    · rfl
    · simpa using h
  · rw [if_neg h, lookupNeed, List.find?_cons_of_neg]
    · rfl
    · simpa using h

/-- Updating a key adds its quantity to that key's accumulated total. -/
theorem needAmt_updateNeeds_self (acc : List ((String × String) × (Int × List Contrib)))
    (key : String × String) (qty : Int) (c : Contrib) :
    needAmt (updateNeeds acc key qty c) key = needAmt acc key + qty := by
  induction acc with
  | nil => simp [updateNeeds, needAmt, lookupNeed_cons, lookupNeed]
  | cons e rest ih =>
    obtain ⟨k, v⟩ := e
    by_cases hk : k = key
    · subst hk
      rw [updateNeeds, if_pos rfl]
      simp [needAmt, lookupNeed_cons]
    · rw [updateNeeds, if_neg hk]
      simp only [needAmt, lookupNeed_cons, if_neg hk] at ih ⊢
      exact ih

/-- Updating a key leaves every other key's entry unchanged. -/
theorem lookupNeed_updateNeeds_other (acc : List ((String × String) × (Int × List Contrib)))
    (key : String × String) (qty : Int) (c : Contrib) (key' : String × String)
    (h : key' ≠ key) :
    lookupNeed (updateNeeds acc key qty c) key' = lookupNeed acc key' := by
  induction acc with
  | nil =>
    rw [updateNeeds, lookupNeed_cons, if_neg (fun heq => h heq.symm)]
  | cons e rest ih =>
    obtain ⟨k, v⟩ := e
    by_cases hk : k = key
    · subst hk
      rw [updateNeeds, if_pos rfl, lookupNeed_cons, lookupNeed_cons]
      rw [show ((k, (v.1 + qty, v.2 ++ [c])) : (String × String) × (Int × List Contrib)).1 = k
            from rfl]
      rw [if_neg (fun heq => h heq.symm), if_neg (fun heq => h heq.symm)]
    · rw [updateNeeds, if_neg hk, lookupNeed_cons, lookupNeed_cons]
      by_cases hk' : k = key'
      · rw [if_pos hk', if_pos hk']
      · rw [if_neg hk', if_neg hk', ih]

/-- A row contributes `rowNeed` to its own key and nothing to others. -/
theorem neededForKey_cons (row : ReminderRow) (rest : List ReminderRow)
    (today stop : Int) (key : String × String) :
    neededForKey (row :: rest) today stop key =
      (if (row.food_type, row.food_size) = key then rowNeed today stop row else 0) +
        neededForKey rest today stop key := by
  by_cases hk : (row.food_type, row.food_size) = key
  · rw [neededForKey, List.filter_cons_of_pos (by simpa using hk), if_pos hk]
    simp [neededForKey]
  · rw [neededForKey, List.filter_cons_of_neg (by simpa using hk), if_neg hk]
    simp [neededForKey]

/-- Folding the accumulation loop adds exactly each key's total
projected need. -/
theorem needAmt_foodNeeds_loop (rows : List ReminderRow) (today stop : Int) :
    ∀ (acc : List ((String × String) × (Int × List Contrib))) (key : String × String),
      needAmt (rows.foldl (fun acc row =>
        let start := max today row.next_feeding_date
        let cnt := countFeedings start stop row.feeding_interval_days
        if 0 < cnt then
          updateNeeds acc (row.food_type, row.food_size)
            (cnt * row.quantity_per_feeding) (row.reptile_name, cnt, cnt * row.quantity_per_feeding)
        else acc) acc) key =
        needAmt acc key + neededForKey rows today stop key := by
  induction rows with
  | nil =>
    intro acc key
    simp [neededForKey]
  | cons row rest ih =>
    intro acc key
    rw [List.foldl_cons, ih, neededForKey_cons]
    have hstep :
        needAmt (if 0 < countFeedings (max today row.next_feeding_date) stop
              row.feeding_interval_days then
            updateNeeds acc (row.food_type, row.food_size)
              ((countFeedings (max today row.next_feeding_date) stop
                  row.feeding_interval_days : Int) * row.quantity_per_feeding)
              (row.reptile_name,
                countFeedings (max today row.next_feeding_date) stop row.feeding_interval_days,
                (countFeedings (max today row.next_feeding_date) stop
                    row.feeding_interval_days : Int) * row.quantity_per_feeding)
          else acc) key =
          needAmt acc key +
            (if (row.food_type, row.food_size) = key then rowNeed today stop row else 0) := by
      by_cases hcnt : 0 < countFeedings (max today row.next_feeding_date) stop
          row.feeding_interval_days
      · rw [if_pos hcnt]
        by_cases hk : (row.food_type, row.food_size) = key
        · rw [if_pos hk, ← hk, needAmt_updateNeeds_self]
          rw [hk, rowNeed]
        · rw [if_neg hk, add_zero, needAmt, lookupNeed_updateNeeds_other _ _ _ _ _ (Ne.symm hk)]
          rfl
      · rw [if_neg hcnt]
        have hzero : countFeedings (max today row.next_feeding_date) stop
            row.feeding_interval_days = 0 := by omega
        by_cases hk : (row.food_type, row.food_size) = key
        · rw [if_pos hk, rowNeed, hzero]
          simp
        · rw [if_neg hk, add_zero]
    rw [hstep]
    ring

/-- The function `updateNeeds` keeps the key list, appending only a genuinely new
key. -/
theorem updateNeeds_keys (acc : List ((String × String) × (Int × List Contrib)))
    (key : String × String) (qty : Int) (c : Contrib) :
    (updateNeeds acc key qty c).map (fun e => e.1) =
      if key ∈ acc.map (fun e => e.1) then acc.map (fun e => e.1)
      else acc.map (fun e => e.1) ++ [key] := by
  induction acc with
  | nil => simp [updateNeeds]
  | cons e rest ih =>
    obtain ⟨k, v⟩ := e
    by_cases hk : k = key
    · subst hk
      rw [updateNeeds, if_pos rfl]
      simp
    · rw [updateNeeds, if_neg hk]
      simp only [List.map_cons, ih]
      by_cases hmem : key ∈ rest.map (fun e => e.1)
      · rw [if_pos hmem, if_pos (List.mem_cons_of_mem _ hmem)]
      · rw [if_neg hmem,
          if_neg (fun hmm => by
            rcases List.mem_cons.1 hmm with h | h
            · exact hk h.symm
            · exact hmem h)]
        simp

/-- The accumulation loop produces pairwise-distinct SKU keys. -/
theorem foodNeeds_keys_nodup (rows : List ReminderRow) (today stop : Int) :
    ∀ acc : List ((String × String) × (Int × List Contrib)),
      (acc.map (fun e => e.1)).Nodup →
      ((rows.foldl (fun acc row =>
        let start := max today row.next_feeding_date
        let cnt := countFeedings start stop row.feeding_interval_days
        if 0 < cnt then
          updateNeeds acc (row.food_type, row.food_size)
            (cnt * row.quantity_per_feeding)
            (row.reptile_name, cnt, cnt * row.quantity_per_feeding)
        else acc) acc).map (fun e => e.1)).Nodup := by
  induction rows with
  | nil => intro acc h; simpa using h
  | cons row rest ih =>
    intro acc h
    rw [List.foldl_cons]
    refine ih _ ?_
    by_cases hcnt : 0 < countFeedings (max today row.next_feeding_date) stop
        row.feeding_interval_days
    · simp only [if_pos hcnt, updateNeeds_keys]
      by_cases hmem : (row.food_type, row.food_size) ∈ acc.map (fun e => e.1)
      · rwa [if_pos hmem]
      · rw [if_neg hmem, ← List.concat_eq_append]
        exact h.concat hmem
    · simpa only [if_neg hcnt] using h

/-- With pairwise-distinct keys, membership determines the lookup. -/
theorem lookupNeed_of_mem (acc : List ((String × String) × (Int × List Contrib)))
    (p : (String × String) × (Int × List Contrib)) (hmem : p ∈ acc)
    (hnd : (acc.map (fun e => e.1)).Nodup) :
    lookupNeed acc p.1 = some p.2 := by
  induction acc with
  | nil => cases hmem
  | cons e rest ih =>
    rw [lookupNeed_cons]
    rcases List.mem_cons.1 hmem with rfl | hmem'
    · rw [if_pos rfl]
    · simp only [List.map_cons, List.nodup_cons] at hnd
      by_cases he : e.1 = p.1
      · exact absurd (he ▸ List.mem_map_of_mem (fun x => x.1) hmem') hnd.1
      · rw [if_neg he]
        exact ih hmem' hnd.2

/-- C8: for every horizon `H`, the shopping list counts, per active
reminder with food type, food size and next feeding date set, the
feedings at `max(today, next_feeding_date) + k·interval_days ≤
today + H` (inclusive), multiplies by `quantity_per_feeding`, sums per
SKU across all animals, sets each entry's shortage to
`max(0, needed − stock)` with stock 0 for an absent SKU, and returns
the entries sorted descending by shortage. -/
theorem shopping_list_spec (s : InvState) (reminders : List (String × Reminder))
    (today H : Int)
    (hint : ∀ row ∈ shoppingReminderRows reminders, 1 ≤ row.feeding_interval_days) :
    (∀ row ∈ shoppingReminderRows reminders, ∀ k : Nat,
        (max today row.next_feeding_date + (k : Int) * row.feeding_interval_days ≤
            today + H ↔
          k < countFeedings (max today row.next_feeding_date) (today + H)
            row.feeding_interval_days)) ∧
    (∀ e ∈ get_shopping_list s reminders today H,
        e.quantity_needed =
          neededForKey (shoppingReminderRows reminders) today (today + H)
            (e.food_type, e.food_size) ∧
        e.current_stock = currentStockFor s e.food_type e.food_size ∧
        e.shortage = max 0 (e.quantity_needed - e.current_stock)) ∧
    (get_shopping_list s reminders today H).Pairwise
      (fun a b => b.shortage ≤ a.shortage) := by
  refine ⟨?_, ?_, ?_⟩
  · intro row hrow k
    exact countFeedings_spec _ _ _ (hint row hrow) k
  · intro e he
    simp only [get_shopping_list, List.mem_mergeSort] at he
    obtain ⟨p, hp, rfl⟩ := List.mem_map.1 he
    refine ⟨?_, rfl, rfl⟩
    have hnd : ((foodNeeds (shoppingReminderRows reminders) today (today + H)).map
        (fun e => e.1)).Nodup := by
      rw [foodNeeds]
      exact foodNeeds_keys_nodup _ _ _ [] (by simp)
    have hlk := lookupNeed_of_mem _ p hp hnd
    have hamt : needAmt (foodNeeds (shoppingReminderRows reminders) today (today + H)) p.1 =
        p.2.1 := by
      rw [needAmt, hlk]
      rfl
    have hloop : needAmt (foodNeeds (shoppingReminderRows reminders) today (today + H)) p.1 =
        needAmt [] p.1 +
          neededForKey (shoppingReminderRows reminders) today (today + H) p.1 := by
      rw [foodNeeds]
      exact needAmt_foodNeeds_loop _ _ _ [] p.1
    have hzero : needAmt ([] : List ((String × String) × (Int × List Contrib))) p.1 = 0 := rfl
    show p.2.1 = neededForKey (shoppingReminderRows reminders) today (today + H) (p.1.1, p.1.2)
    rw [Prod.mk.eta, ← hamt, hloop, hzero, zero_add]
  · simp only [get_shopping_list]
    refine List.Pairwise.imp (fun h => of_decide_eq_true h) ?_
    exact List.sorted_mergeSort
      (fun a b c hab hbc => by
        simp only [decide_eq_true_eq] at hab hbc ⊢
        omega)
      (fun a b => by
        rcases le_total b.shortage a.shortage with h | h
        · simp [h]
        · simp [h])
      _

unseal List.merge List.mergeSort in
theorem shopping_list_spec_witness :
    (∀ row ∈ shoppingReminderRows remW, 1 ≤ row.feeding_interval_days) ∧
    (∀ e ∈ get_shopping_list invA remW 0 30,
        e.quantity_needed = neededForKey (shoppingReminderRows remW) 0 (0 + 30)
          (e.food_type, e.food_size) ∧
        e.current_stock = currentStockFor invA e.food_type e.food_size ∧
        e.shortage = max 0 (e.quantity_needed - e.current_stock)) ∧
    (get_shopping_list invA remW 0 30).Pairwise (fun a b => b.shortage ≤ a.shortage) ∧
    get_shopping_list invA remW 0 30 =
      [⟨"Mouse", "Small", 7, 0, 7, [("Moe", 7, 7)]⟩,
       ⟨"Rat", "Large", 14, 20, 0, [("Rex", 5, 10), ("Sly", 4, 4)]⟩] :=
  ⟨by decide,
   (shopping_list_spec invA remW 0 30 (by decide)).2.1,
   (shopping_list_spec invA remW 0 30 (by decide)).2.2,
   by decide⟩

end ReptileTracker
